import Mathlib

/-!
# CloudSyncApplication — shallow embedding and verification

This file gives a shallow embedding of the reconciliation core of the
CloudSyncApplication repository (`src/sync/change_detector.py`,
`src/sync/core.py`, `src/sync/cloud_ops.py`, `src/cloud_storage/yandex_disk.py`)
and proves/refutes the frozen specification claims about it.

Modelling conventions:
* Python dicts `path -> value` become association lists `List (String × _)`;
  python dicts have unique keys, so theorems that need dict semantics carry
  `Nodup` hypotheses on the key list.
* Modification times and timestamps (python floats) become `ℚ`: only ordering
  and equality of timestamps are ever used by the code.
* The remote client is modelled by a trace semantics: every remote call that
  the reconciliation attempts is recorded as a `CloudOp`; a failure oracle on
  the client decides which attempted calls raise an exception, and `RunResult.ok`
  records whether an uncaught exception escaped the modelled code.
* `datetime.strptime(s[:19], "%Y-%m-%dT%H:%M:%S")` followed by `.timestamp()`
  is modelled by `pyStrptime19`, which follows CPython's parser — `%Y` exactly
  four digits, the remaining fields one or two digits, the whole truncated
  string consumed, ranges as the `_strptime` regular expressions and the
  `datetime` constructor validate them — returning proleptic-Gregorian epoch
  seconds (the timezone offset of the host is immaterial to every claim: only
  success/failure and ordering are used). `parseIso19` is, by contrast, the
  strict fixed-width ISO-8601 reading used by the specification's words, kept
  for comparison with the code's laxer parse.
* Remote item metadata whose `modified` key may be absent is modelled by
  `CloudItemRaw` (`modified : Option String`); `CloudItem`, with the key
  present, is its restriction, and the pipeline's step-3 loop agrees with the
  faithful raw loop on that restriction (`step3GoRaw_agrees`). The raw loop
  records the `KeyError` that `cloud_item['modified']` raises when the key is
  absent.
* The live filesystem consulted by `_find_renamed_files` (`Path.exists` /
  `Path.stat`) is an oracle `FsStat`; `none` models both a missing file and an
  `OSError` from `stat` (the code treats the two the same way: the candidate
  never matches).
* The identifier strings `f"{size}-{mtime}"` of `_get_file_identifier` /
  `_calculate_file_identifier` are modelled as `Option (ℕ × ℚ)` with `none`
  for the empty string: for non-negative sizes and mtimes the python format
  is injective, so string equality coincides with pair equality.
-/

namespace CloudSync

/-! ## Python string primitives

The python string operations used by the sync core, re-implemented by
structural recursion over the character list of the string (so that concrete
runs of the model reduce inside the kernel). Python indexes and slices
strings by characters, exactly like `String.data`. -/

/-- `s.split(c)` for a one-character separator: always returns at least one
(possibly empty) piece, with empty pieces between adjacent separators. -/
def splitChar (c : Char) : List Char → List (List Char)
  | [] => [[]]
  | a :: rest =>
    match splitChar c rest with
    | [] => [[]]
    | g :: gs => if a == c then [] :: g :: gs else (a :: g) :: gs

/-- `f.split('/')`. -/
def pySplitSlash (s : String) : List String :=
  (splitChar '/' s.data).map String.mk

/-- `'/'.join(parts)`. -/
def pyJoinSlash (parts : List String) : String :=
  String.mk (((parts.map String.data).intersperse ['/']).flatten)

/-- `s[:n]` — python slice by characters. -/
def pyTake (s : String) (n : ℕ) : String := String.mk (s.data.take n)

/-- `s[n:]` — python slice by characters. -/
def pyDrop (s : String) (n : ℕ) : String := String.mk (s.data.drop n)

/-- `s.startswith(p)`. -/
def pyStartsWith (p s : String) : Bool := p.data.isPrefixOf s.data

/-- A local file's metadata as produced by `LocalScanner.scan_local_files`:
`(st_mtime, st_size)`, in that (python tuple) order. -/
abbrev LocalEntry := ℚ × ℕ

/-- `Dict[str, Tuple[float, int]]` — local snapshot keyed by relative path. -/
abbrev LocalSnap := List (String × LocalEntry)

/-- The metadata dict of one remote item, as returned by the Yandex Disk API
(the fields the sync core reads: `path`, `type`, `size`, `modified`). -/
structure CloudItem where
  path : String
  type : String
  size : ℕ
  modified : String
  deriving DecidableEq, Repr

/-- `Dict[str, Dict[str, Any]]` — remote snapshot keyed by relative path. -/
abbrev CloudSnap := List (String × CloudItem)

/-- The metadata dict of one remote item with no guarantee that the
`modified` key is present (`none` models an absent key, on which the
subscript `cloud_item['modified']` raises `KeyError`). -/
structure CloudItemRaw where
  path : String
  type : String
  size : ℕ
  modified : Option String
  deriving DecidableEq, Repr

/-- A remote snapshot of raw items. -/
abbrev CloudSnapRaw := List (String × CloudItemRaw)

/-- A `CloudItem` is a raw item whose `modified` key is present. -/
def CloudItem.toRaw (i : CloudItem) : CloudItemRaw :=
  ⟨i.path, i.type, i.size, some i.modified⟩

/-- Oracle for the live local filesystem: `fs rel` is the `(st_mtime, st_size)`
of `local_path / rel`, or `none` when the file does not exist (or `stat` fails). -/
abbrev FsStat := String → Option (ℚ × ℕ)

/-- One attempted remote mutation call. -/
inductive CloudOp where
  | load (relPath : String)
  | delete (cloudPath : String) (permanent : Bool)
  | rename (oldPath newPath : String)
  deriving DecidableEq, Repr

/-- The remote-store client, as seen by the reconciliation: its configured
cloud folder, whether it has a `rename` attribute, and a failure oracle for
each mutation primitive (`fail… = true` means the call raises). -/
structure CloudClient where
  cloudFolder : String
  hasRename : Bool
  failLoad : String → Bool
  failDelete : String → Bool
  failRename : String → String → Bool

namespace YandexDiskClient

/-- `YandexDiskClient.delete` always sends `params={'path': …, 'permanently': True}`:
every delete issued through this client is permanent. -/
def deletePermanently : Bool := true

/-- The remote call made by `YandexDiskClient.delete(file_path)`. -/
def deleteOp (cloudPath : String) : CloudOp :=
  CloudOp.delete cloudPath deletePermanently

end YandexDiskClient

/-- The trace of one modelled code region: the remote calls attempted (in
order), and whether the region returned normally (`ok = true`) or an uncaught
exception escaped it (`ok = false`, nothing after the failing call is run). -/
structure RunResult where
  ops : List CloudOp
  ok : Bool
  deriving DecidableEq, Repr

/-! ## ISO-8601 timestamp parsing (`ChangeDetector._parse_cloud_time`) -/

/-- Gregorian leap year (python `calendar`/`datetime` rule). -/
def isLeapYear (y : ℕ) : Bool :=
  (y % 4 == 0 && y % 100 != 0) || y % 400 == 0

/-- Number of days in month `m` of year `y`. -/
def daysInMonth (y m : ℕ) : ℕ :=
  if m = 2 then (if isLeapYear y then 29 else 28)
  else if m = 4 ∨ m = 6 ∨ m = 9 ∨ m = 11 then 30
  else 31

/-- Days in year `y` strictly before month `m`. -/
def daysBeforeMonth (y m : ℕ) : ℕ :=
  (List.range (m - 1)).foldl (fun acc i => acc + daysInMonth y (i + 1)) 0

/-- Days from 1970-01-01 to `y`-`m`-`d` in the proleptic Gregorian calendar
(719162 is the day count of 1970-01-01 from year 1). -/
def daysFromCivil (y m d : ℕ) : ℤ :=
  (365 * ((y : ℤ) - 1) + ((y : ℤ) - 1) / 4 - ((y : ℤ) - 1) / 100 + ((y : ℤ) - 1) / 400
    + (daysBeforeMonth y m : ℤ) + ((d : ℤ) - 1)) - 719162

/-- Numeric value of a decimal digit character. -/
def digitVal (c : Char) : ℕ := c.toNat - '0'.toNat

/-- Split off the maximal leading run of decimal digits. -/
def takeDigits : List Char → List Char × List Char
  | [] => ([], [])
  | c :: rest =>
    if c.isDigit then
      let p := takeDigits rest
      (c :: p.1, p.2)
    else ([], c :: rest)

/-- Numeric value of a digit run. -/
def digitsVal (ds : List Char) : ℕ :=
  ds.foldl (fun acc c => 10 * acc + digitVal c) 0

/-- Read `%Y` (exactly four digits, as CPython's `_strptime` regex demands)
followed by the literal separator `-`. -/
def readYear (cs : List Char) : Option (ℕ × List Char) :=
  match takeDigits cs with
  | (ds, c :: rest) =>
    if c == '-' ∧ ds.length = 4 then some (digitsVal ds, rest) else none
  | _ => none

/-- Read a one-or-two-digit field (as CPython's `%m`/`%d`/`%H`/`%M` regexes
accept) followed by the literal separator `sep`. The digit run before the
separator must be the whole field: a longer run makes the match fail. -/
def readField2 (sep : Char) (cs : List Char) : Option (ℕ × List Char) :=
  match takeDigits cs with
  | (ds, c :: rest) =>
    if c == sep ∧ 1 ≤ ds.length ∧ ds.length ≤ 2 then some (digitsVal ds, rest) else none
  | _ => none

/-- Read the final one-or-two-digit field, which must consume the rest of the
string (`strptime` raises on unconverted trailing data). -/
def readFieldEnd (cs : List Char) : Option ℕ :=
  match takeDigits cs with
  | (ds, []) => if 1 ≤ ds.length ∧ ds.length ≤ 2 then some (digitsVal ds) else none
  | _ => none

/-- Model of CPython `datetime.strptime(s, "%Y-%m-%dT%H:%M:%S")`: a four-digit
year and one-or-two-digit month, day, hour, minute and second fields around
the literal separators, consuming the whole string, with the ranges the
`_strptime` regular expressions and the `datetime` constructor enforce
(month 1–12, day within the month, hour ≤ 23, minute and second ≤ 59,
year ≥ 1). Unlike strict ISO-8601, short fields such as `"2023-4-27T19:41:25"`
are accepted. -/
def pyStrptime19 (s : String) : Option (ℕ × ℕ × ℕ × ℕ × ℕ × ℕ) :=
  match readYear s.data with
  | none => none
  | some (y, r1) =>
    match readField2 '-' r1 with
    | none => none
    | some (mo, r2) =>
      match readField2 'T' r2 with
      | none => none
      | some (d, r3) =>
        match readField2 ':' r3 with
        | none => none
        | some (h, r4) =>
          match readField2 ':' r4 with
          | none => none
          | some (mi, r5) =>
            match readFieldEnd r5 with
            | none => none
            | some se =>
              if 1 ≤ y ∧ 1 ≤ mo ∧ mo ≤ 12 ∧ 1 ≤ d ∧ d ≤ daysInMonth y mo ∧
                  h ≤ 23 ∧ mi ≤ 59 ∧ se ≤ 59 then
                some (y, mo, d, h, mi, se)
              else none

namespace ChangeDetector

/-- `ChangeDetector._parse_cloud_time(timestr)`: parse the first 19 characters
with `strptime("%Y-%m-%dT%H:%M:%S")` and return the epoch timestamp; on any
parse failure return `0.0`. -/
def parseCloudTime (timestr : String) : ℚ :=
  match pyStrptime19 (pyTake timestr 19) with
  | some (y, mo, d, h, mi, se) =>
    ((daysFromCivil y mo d * 86400 + h * 3600 + mi * 60 + se : ℤ) : ℚ)
  | none => 0

/-! ## Change signals -/

/-- `ChangeDetector.check_local_changes(current_local, last_local)`. -/
def checkLocalChanges (current last : LocalSnap) : Bool :=
  if last.isEmpty then true
  else
    let addedFiles := (current.map Prod.fst).filter (fun k => !(last.map Prod.fst).contains k)
    let removedFiles := (last.map Prod.fst).filter (fun k => !(current.map Prod.fst).contains k)
    if !addedFiles.isEmpty then true
    else if !removedFiles.isEmpty then true
    else current.any (fun pe =>
      match last.lookup pe.1 with
      | some e0 => decide (pe.2.1 > e0.1) || decide (pe.2.2 ≠ e0.2)
      | none => false)

/-- `ChangeDetector.check_cloud_changes(current_cloud, last_cloud)`. -/
def checkCloudChanges (current last : CloudSnap) : Bool :=
  if last.isEmpty then true
  else
    let added := (current.map Prod.fst).filter (fun k => !(last.map Prod.fst).contains k)
    let removed := (last.map Prod.fst).filter (fun k => !(current.map Prod.fst).contains k)
    if !added.isEmpty || !removed.isEmpty then true
    else current.any (fun pi =>
      match last.lookup pi.1 with
      | some j => pi.2.modified != j.modified
      | none => false)

/-! ## File rename detection -/

/-- `ChangeDetector._get_file_identifier(rel_path, last_local)`:
`f"{size}-{mtime}"` from the baseline entry, `""` (here `none`) if absent. -/
def getFileIdentifier (relPath : String) (lastLocal : LocalSnap) : Option (ℕ × ℚ) :=
  match lastLocal.lookup relPath with
  | some e => some (e.2, e.1)
  | none => none

/-- `ChangeDetector._calculate_file_identifier(file_path)`:
`f"{st_size}-{st_mtime}"` from a fresh stat, `""` (here `none`) on `OSError`. -/
def calculateFileIdentifier (fs : FsStat) (relPath : String) : Option (ℕ × ℚ) :=
  match fs relPath with
  | some e => some (e.2, e.1)
  | none => none

/-- The inner greedy loop of `_find_renamed_files`: walk the disappeared
paths, pair each (when still present remotely) with the first appeared path
that exists on disk and has an equal identifier, removing a matched appeared
path from further consideration. -/
def findRenamedFilesAux (fs : FsStat) (cloudKeys : List String) (lastLocal : LocalSnap) :
    List String → List String → List (String × String)
  | [], _ => []
  | oldName :: rest, appeared =>
    if !cloudKeys.contains oldName then
      findRenamedFilesAux fs cloudKeys lastLocal rest appeared
    else
      let oldHash := getFileIdentifier oldName lastLocal
      match appeared.find? (fun newName =>
          (fs newName).isSome && calculateFileIdentifier fs newName == oldHash) with
      | some newName =>
        (oldName, newName) :: findRenamedFilesAux fs cloudKeys lastLocal rest (appeared.erase newName)
      | none => findRenamedFilesAux fs cloudKeys lastLocal rest appeared

/-- `ChangeDetector._find_renamed_files(current_local, current_cloud, last_local, local_path)`. -/
def findRenamedFiles (currentLocal : LocalSnap) (currentCloud : CloudSnap)
    (lastLocal : LocalSnap) (fs : FsStat) : List (String × String) :=
  let currentLocalSet := currentLocal.map Prod.fst
  let lastLocalSet := lastLocal.map Prod.fst
  let disappearedLocally := lastLocalSet.filter (fun k => !currentLocalSet.contains k)
  let appearedLocally := currentLocalSet.filter (fun k => !lastLocalSet.contains k)
  findRenamedFilesAux fs (currentCloud.map Prod.fst) lastLocal disappearedLocally appearedLocally

/-! ## Folder rename detection -/

/-- The directory prefixes implied by one path:
`'/'.join(f.split('/')[:i+1]) for i in range(len(f.split('/')) - 1)`. -/
def foldersOfPath (f : String) : List String :=
  let parts := pySplitSlash f
  (List.range (parts.length - 1)).map (fun i => pyJoinSlash (parts.take (i + 1)))

/-- The set of folders implied by all paths of a snapshot. -/
def foldersOf (snap : LocalSnap) : List String :=
  ((snap.map Prod.fst).flatMap foldersOfPath).eraseDups

/-- `ChangeDetector._compare_folder_structures(old_folder, new_folder, current_local, current_cloud)`. -/
def compareFolderStructures (oldFolder newFolder : String)
    (currentLocal : LocalSnap) (currentCloud : CloudSnap) : Bool :=
  let oldFiles := (currentCloud.filter (fun fi => pyStartsWith (oldFolder ++ "/") fi.1)).map
      (fun fi => (pyDrop fi.1 (oldFolder.length + 1), fi.2))
  let newFiles := (currentLocal.filter (fun fe => pyStartsWith (newFolder ++ "/") fe.1)).map
      (fun fe => (pyDrop fe.1 (newFolder.length + 1), fe.2))
  if oldFiles.length ≠ newFiles.length then false
  else newFiles.all (fun re =>
    match oldFiles.lookup re.1 with
    | some item => re.2.2 == item.size
    | none => false)

/-- The greedy loop of `_find_renamed_folders`. -/
def findRenamedFoldersAux (currentLocal : LocalSnap) (currentCloud : CloudSnap) :
    List String → List String → List (String × String)
  | [], _ => []
  | oldF :: rest, appeared =>
    match appeared.find? (fun newF => compareFolderStructures oldF newF currentLocal currentCloud) with
    | some newF =>
      (oldF, newF) :: findRenamedFoldersAux currentLocal currentCloud rest (appeared.erase newF)
    | none => findRenamedFoldersAux currentLocal currentCloud rest appeared

/-- `ChangeDetector._find_renamed_folders(current_local, current_cloud, last_local)`. -/
def findRenamedFolders (currentLocal : LocalSnap) (currentCloud : CloudSnap)
    (lastLocal : LocalSnap) : List (String × String) :=
  let lastFolders := foldersOf lastLocal
  let currentFolders := foldersOf currentLocal
  let disappeared := lastFolders.filter (fun k => !currentFolders.contains k)
  let appeared := currentFolders.filter (fun k => !lastFolders.contains k)
  findRenamedFoldersAux currentLocal currentCloud disappeared appeared

/-! ## The ordered reconciliation (`process_local_changes`) -/

/-- `s.count('/')` — the nesting depth key used to order folder renames. -/
def sepCount (s : String) : ℕ := s.data.countP (fun c => c == '/')

/-- `folder_renames.sort(key=lambda x: -x[0].count('/'))`: python's sort is
stable, so it is modelled by a stable sort under the same total preorder
(deepest old path first); any two stable sorts under one preorder agree. -/
def sortFolderRenames (pairs : List (String × String)) : List (String × String) :=
  pairs.insertionSort (fun a b => sepCount b.1 ≤ sepCount a.1)

/-- The remote calls attempted by `_process_folder_rename` for one pair:
one `rename` when the client has the capability (its failure is re-raised and
then swallowed by step 1's per-item handler), none otherwise. -/
def processFolderRename (client : CloudClient) (oldFolder newFolder : String) : List CloudOp :=
  if client.hasRename then
    [CloudOp.rename ("/" ++ client.cloudFolder ++ "/" ++ oldFolder)
      ("/" ++ client.cloudFolder ++ "/" ++ newFolder)]
  else []

/-- Step 1 of `process_local_changes`: folder renames, sorted deepest first,
each item's exception caught and logged. -/
def step1FolderRenames (client : CloudClient) (folderRenames : List (String × String)) :
    List CloudOp :=
  (sortFolderRenames folderRenames).flatMap (fun pr => processFolderRename client pr.1 pr.2)

/-- `ChangeDetector._try_rename_cloud_file(old_name, new_name, cloud_client)`:
the attempted calls and the returned boolean (`false` both when the client has
no `rename` attribute and when the rename call raised). -/
def tryRenameCloudFile (client : CloudClient) (oldName newName : String) :
    List CloudOp × Bool :=
  if client.hasRename then
    let oldPath := "/" ++ client.cloudFolder ++ "/" ++ oldName
    let newPath := "/" ++ client.cloudFolder ++ "/" ++ newName
    ([CloudOp.rename oldPath newPath], !client.failRename oldPath newPath)
  else ([], false)

/-- One item of step 2 of `process_local_changes`: try a direct rename; on
failure fall back to upload-under-new-name then delete-of-old-remote-path.
Any exception in the fallback is caught by the per-item handler (the calls
before it remain attempted). -/
def step2Item (client : CloudClient) (currentCloud : CloudSnap)
    (oldName newName : String) : List CloudOp :=
  let tr := tryRenameCloudFile client oldName newName
  if tr.2 then tr.1
  else if client.failLoad newName then tr.1 ++ [CloudOp.load newName]
  else
    match currentCloud.lookup oldName with
    | some item => tr.1 ++ [CloudOp.load newName, YandexDiskClient.deleteOp item.path]
    | none => tr.1 ++ [CloudOp.load newName]

/-- Step 2 of `process_local_changes`: file renames, each item's exception
caught and logged. -/
def step2FileRenames (client : CloudClient) (currentCloud : CloudSnap)
    (renamedPairs : List (String × String)) : List CloudOp :=
  renamedPairs.flatMap (fun pr => step2Item client currentCloud pr.1 pr.2)

/-- `processed_files` after step 2: the new names then the old names of the
detected file-rename pairs. -/
def processedFilesOf (renamedPairs : List (String × String)) : List String :=
  renamedPairs.map Prod.snd ++ renamedPairs.map Prod.fst

/-- The upload decision of step 3 for one path of the current local snapshot:
upload when absent remotely; otherwise re-upload when the entry differs from
the local baseline entry (strictly newer mtime or different size), or else
when the local mtime is strictly newer than the parsed remote mtime. -/
def shouldUpload (currentLocal lastLocal : LocalSnap) (currentCloud : CloudSnap)
    (relPath : String) : Bool :=
  if !(currentCloud.map Prod.fst).contains relPath then true
  else
    match currentLocal.lookup relPath, currentCloud.lookup relPath with
    | some e, some item =>
      let cloudMtime := parseCloudTime item.modified
      match lastLocal.lookup relPath with
      | some b => if e.1 > b.1 || e.2 ≠ b.2 then true else decide (e.1 > cloudMtime)
      | none => decide (e.1 > cloudMtime)
    | _, _ => false

/-- The loop body of step 3: no per-item handler, so a failing upload aborts
the whole run (nothing after it is attempted). -/
def step3Go (client : CloudClient) (currentLocal lastLocal : LocalSnap)
    (currentCloud : CloudSnap) : List String → RunResult
  | [] => ⟨[], true⟩
  | relPath :: rest =>
    if shouldUpload currentLocal lastLocal currentCloud relPath then
      if client.failLoad relPath then ⟨[CloudOp.load relPath], false⟩
      else
        let r := step3Go client currentLocal lastLocal currentCloud rest
        ⟨CloudOp.load relPath :: r.ops, r.ok⟩
    else step3Go client currentLocal lastLocal currentCloud rest

/-- Step 3 of `process_local_changes`: iterate `current_local_set - processed_files`. -/
def step3Uploads (client : CloudClient) (currentLocal lastLocal : LocalSnap)
    (currentCloud : CloudSnap) (processed : List String) : RunResult :=
  step3Go client currentLocal lastLocal currentCloud
    ((currentLocal.map Prod.fst).filter (fun k => !processed.contains k))

/-- The step-3 body over raw remote metadata: for a path present remotely,
line 145 evaluates `cloud_item['modified']` before the upload decision, so an
absent `modified` key raises `KeyError` (`none`) there; otherwise the
decision is the one of `shouldUpload`. -/
def shouldUploadRaw (currentLocal lastLocal : LocalSnap) (currentCloud : CloudSnapRaw)
    (relPath : String) : Option Bool :=
  if !(currentCloud.map Prod.fst).contains relPath then some true
  else
    match currentLocal.lookup relPath, currentCloud.lookup relPath with
    | some e, some item =>
      match item.modified with
      | none => none
      | some mstr =>
        let cloudMtime := parseCloudTime mstr
        match lastLocal.lookup relPath with
        | some b =>
          if e.1 > b.1 || e.2 ≠ b.2 then some true else some (decide (e.1 > cloudMtime))
        | none => some (decide (e.1 > cloudMtime))
    | _, _ => some false

/-- The step-3 loop over raw remote metadata: a `KeyError` from the metadata
access has no handler, so it aborts the loop before any call for that path. -/
def step3GoRaw (client : CloudClient) (currentLocal lastLocal : LocalSnap)
    (currentCloud : CloudSnapRaw) : List String → RunResult
  | [] => ⟨[], true⟩
  | relPath :: rest =>
    match shouldUploadRaw currentLocal lastLocal currentCloud relPath with
    | none => ⟨[], false⟩
    | some true =>
      if client.failLoad relPath then ⟨[CloudOp.load relPath], false⟩
      else
        let r := step3GoRaw client currentLocal lastLocal currentCloud rest
        ⟨CloudOp.load relPath :: r.ops, r.ok⟩
    | some false => step3GoRaw client currentLocal lastLocal currentCloud rest

/-- The loop body of step 4: delete by the stored remote `path`; no per-item
handler, so a failing delete aborts the run. -/
def step4Go (client : CloudClient) (currentCloud : CloudSnap) : List String → RunResult
  | [] => ⟨[], true⟩
  | relPath :: rest =>
    match currentCloud.lookup relPath with
    | some item =>
      if client.failDelete item.path then ⟨[YandexDiskClient.deleteOp item.path], false⟩
      else
        let r := step4Go client currentCloud rest
        ⟨YandexDiskClient.deleteOp item.path :: r.ops, r.ok⟩
    | none => step4Go client currentCloud rest

/-- Step 4 of `process_local_changes`: iterate
`current_cloud_set - current_local_set - processed_files` and delete each. -/
def step4Deletes (client : CloudClient) (currentCloud : CloudSnap)
    (currentLocalKeys processed : List String) : RunResult :=
  step4Go client currentCloud
    ((currentCloud.map Prod.fst).filter
      (fun k => !currentLocalKeys.contains k && !processed.contains k))

/-- `ChangeDetector.process_local_changes(current_local, current_cloud,
last_local, local_path, cloud_ops, cloud_client)`: the ordered steps 1–4.
Steps 1 and 2 catch per-item exceptions; an exception in step 3 or 4
escapes (`ok = false`) and nothing after the failing call is attempted. -/
def processLocalChanges (currentLocal : LocalSnap) (currentCloud : CloudSnap)
    (lastLocal : LocalSnap) (fs : FsStat) (client : CloudClient) : RunResult :=
  let renamedPairs := findRenamedFiles currentLocal currentCloud lastLocal fs
  let folderRenames := findRenamedFolders currentLocal currentCloud lastLocal
  let processed := processedFilesOf renamedPairs
  let ops1 := step1FolderRenames client folderRenames
  let ops2 := step2FileRenames client currentCloud renamedPairs
  let r3 := step3Uploads client currentLocal lastLocal currentCloud processed
  if r3.ok then
    let r4 := step4Deletes client currentCloud (currentLocal.map Prod.fst) processed
    ⟨ops1 ++ ops2 ++ r3.ops ++ r4.ops, r4.ok⟩
  else ⟨ops1 ++ ops2 ++ r3.ops, false⟩

end ChangeDetector

/-! ## Remote snapshot construction (`CloudOperations.scan_cloud_files_with_retry`) -/

/-- The successful body of `scan_cloud_files_with_retry`: keep exactly the
items whose `type` is `'file'`, keyed by
`item['path'].replace(f"disk:/{cloud_folder}/", "")`. -/
def scanCloudFiles (cloudFolder : String) (items : List CloudItem) : CloudSnap :=
  items.filterMap (fun item =>
    if item.type == "file" then
      some (item.path.replace ("disk:/" ++ cloudFolder ++ "/") "", item)
    else none)

/-! ## The incremental tick (`FileSynchronizer.sync`) -/

/-- The baselines owned by `FileSynchronizer`
(`_last_local_state`, `_last_cloud_state`). -/
structure SyncState where
  lastLocal : LocalSnap
  lastCloud : CloudSnap
  deriving DecidableEq, Repr

namespace FileSynchronizer

open ChangeDetector

/-- `FileSynchronizer.sync()`, one incremental tick, with the freshly scanned
snapshots as inputs: returns the new baseline state, the attempted remote
calls, and whether the tick completed normally (`false` = a `SyncError` was
raised, in which case the baselines are left unchanged). -/
def sync (st : SyncState) (currentLocal : LocalSnap) (currentCloud : CloudSnap)
    (fs : FsStat) (client : CloudClient) : SyncState × List CloudOp × Bool :=
  let localChanges := checkLocalChanges currentLocal st.lastLocal
  let cloudChanges := checkCloudChanges currentCloud st.lastCloud
  if !localChanges && !cloudChanges then (st, [], true)
  else if localChanges then
    let r := processLocalChanges currentLocal currentCloud st.lastLocal fs client
    if r.ok then (⟨currentLocal, currentCloud⟩, r.ops, true)
    else (st, r.ops, false)
  else (⟨currentLocal, currentCloud⟩, [], true)

end FileSynchronizer

/-! ## The spec's claimed change signal (refinement comparison)

`specCloudChangeSignal` is written from the specification's words, not from
the code: "the change signal is true iff the baseline is empty (no baseline
exists), or the key sets of current and baseline differ, or some path present
in both has a differing size or a strictly newer modification time in the
current snapshot", instantiated on the cloud side (size and modification time
are the `size` and parsed `modified` fields of the stored item metadata).
It exists only to be compared against `checkCloudChanges`. -/
def specCloudChangeSignal (current last : CloudSnap) : Prop :=
  last = [] ∨ (¬ ∀ p, p ∈ current.map Prod.fst ↔ p ∈ last.map Prod.fst) ∨
    ∃ p i j, current.lookup p = some i ∧ last.lookup p = some j ∧
      (i.size ≠ j.size ∨
        ChangeDetector.parseCloudTime j.modified < ChangeDetector.parseCloudTime i.modified)

/-! ## Concrete fixtures for witnesses and counterexamples -/

/-- A remote file item as `scan_cloud_files_with_retry` stores it. -/
def itemA : CloudItem :=
  ⟨"disk:/sync/a.txt", "file", 100, "2023-04-27T19:41:25+00:00"⟩

/-- A remote directory item (never a key of the remote snapshot). -/
def dirItem : CloudItem := ⟨"disk:/sync/d", "dir", 0, ""⟩

/-- A client on cloud folder `sync` with a `rename` attribute; every call succeeds. -/
def okClient : CloudClient :=
  ⟨"sync", true, fun _ => false, fun _ => false, fun _ _ => false⟩

/-- A client whose upload of `b.txt` raises; every other call succeeds. -/
def failLoadBClient : CloudClient :=
  ⟨"sync", true, fun r => r == "b.txt", fun _ => false, fun _ _ => false⟩

/-- A client with a `rename` attribute whose rename calls all raise. -/
def failRenameClient : CloudClient :=
  ⟨"sync", true, fun _ => false, fun _ => false, fun _ _ => true⟩

/-- The filesystem oracle of an empty local directory. -/
def fsNone : FsStat := fun _ => none

/-- The filesystem oracle of a directory holding exactly `b.txt` (mtime 5, size 100). -/
def fsB : FsStat := fun r => if r == "b.txt" then some ((5 : ℚ), 100) else none

/-! ## Association-list (python dict) lemmas -/

theorem lookup_cons {α : Type*} (k k' : String) (v : α) (t : List (String × α)) :
    ((k', v) :: t).lookup k = if k == k' then some v else t.lookup k := by
  cases h : k == k' <;> simp [List.lookup, h]

theorem mem_of_lookup_eq_some {α : Type*} {l : List (String × α)} {k : String} {v : α}
    (h : l.lookup k = some v) : (k, v) ∈ l := by
  induction l with
  | nil => simp [List.lookup] at h
  | cons e t ih =>
    obtain ⟨k', v'⟩ := e
    rw [lookup_cons] at h
    split at h
    · next heq =>
      obtain rfl : k = k' := beq_iff_eq.mp heq
      cases h
      exact List.mem_cons_self _ _
    · exact List.mem_cons_of_mem _ (ih h)

theorem lookup_eq_some_of_mem {α : Type*} {l : List (String × α)}
    (hnd : (l.map Prod.fst).Nodup) {k : String} {v : α}
    (h : (k, v) ∈ l) : l.lookup k = some v := by
  induction l with
  | nil => cases h
  | cons e t ih =>
    obtain ⟨k', v'⟩ := e
    rw [List.map_cons, List.nodup_cons] at hnd
    rcases List.mem_cons.mp h with h1 | h1
    · cases h1
      rw [lookup_cons, if_pos (beq_iff_eq.mpr rfl)]
    · have hk : ¬k = k' := fun hkk =>
        hnd.1 (hkk ▸ List.mem_map.mpr ⟨(k, v), h1, rfl⟩)
      rw [lookup_cons, if_neg (by simp [hk]), ih hnd.2 h1]

theorem lookup_isSome_iff {α : Type*} (l : List (String × α)) (k : String) :
    (l.lookup k).isSome = true ↔ k ∈ l.map Prod.fst := by
  induction l with
  | nil => simp [List.lookup]
  | cons e t ih =>
    obtain ⟨k', v'⟩ := e
    rw [lookup_cons]
    by_cases hk : k = k'
    · subst hk; simp
    · simp [hk, ih]

theorem lookup_eq_none_iff {α : Type*} (l : List (String × α)) (k : String) :
    l.lookup k = none ↔ k ∉ l.map Prod.fst := by
  rw [← lookup_isSome_iff]
  cases h : l.lookup k <;> simp

/-- `contains` agrees with membership (python `in` on `set`/`dict` keys). -/
theorem contains_iff_mem (l : List String) (a : String) :
    l.contains a = true ↔ a ∈ l := by
  simp [List.elem_eq_mem]

/-! ## Characterizations of the change signals -/

/-- The key-set comparison made by both signals: the `added` and `removed`
difference lists are both empty exactly when the key sets coincide. -/
theorem keys_same_iff {α β : Type*} (current : List (String × α)) (last : List (String × β)) :
    ((current.map Prod.fst).filter (fun k => !(last.map Prod.fst).contains k) = [] ∧
     (last.map Prod.fst).filter (fun k => !(current.map Prod.fst).contains k) = []) ↔
    ∀ p, p ∈ current.map Prod.fst ↔ p ∈ last.map Prod.fst := by
  simp only [List.filter_eq_nil_iff, Bool.not_eq_true', Bool.not_eq_false]
  constructor
  · rintro ⟨h1, h2⟩ p
    constructor
    · intro hp
      simpa using h1 p hp
    · intro hp
      simpa using h2 p hp
  · intro hall
    refine ⟨fun p hp => ?_, fun p hp => ?_⟩
    · simpa using (hall p).mp hp
    · simpa using (hall p).mpr hp

/-- Collapse the two-armed `if`-chain that both signals use. -/
theorem bool_if_chain (c1 c2 b : Bool) :
    (if c1 = true then true else if c2 = true then true else b) = (c1 || c2 || b) := by
  cases c1 <;> cases c2 <;> simp

/-- `check_local_changes` returns true precisely when the baseline is empty,
the key sets differ, or some path present in both snapshots has a strictly
newer modification time or a different size in the current one. -/
theorem checkLocalChanges_iff (current last : LocalSnap)
    (hnd : (current.map Prod.fst).Nodup) :
    ChangeDetector.checkLocalChanges current last = true ↔
      (last = [] ∨ (¬ ∀ p, p ∈ current.map Prod.fst ↔ p ∈ last.map Prod.fst) ∨
       ∃ p e e0, current.lookup p = some e ∧ last.lookup p = some e0 ∧
         (e0.1 < e.1 ∨ e.2 ≠ e0.2)) := by
  by_cases hL : last = []
  · simp [ChangeDetector.checkLocalChanges, hL]
  · rw [ChangeDetector.checkLocalChanges]
    rw [if_neg (by simpa [List.isEmpty_iff] using hL), bool_if_chain,
      Bool.or_eq_true, Bool.or_eq_true]
    have hadd : ∀ (l : List String), (!l.isEmpty) = true ↔ ¬(l = []) := by
      intro l
      simp [List.isEmpty_iff]
    constructor
    · rintro ((h | h) | h)
      · refine Or.inr (Or.inl fun hall => ?_)
        exact (hadd _).mp h ((keys_same_iff current last).mpr hall).1
      · refine Or.inr (Or.inl fun hall => ?_)
        exact (hadd _).mp h ((keys_same_iff current last).mpr hall).2
      · obtain ⟨pe, hpe, hf⟩ := List.any_eq_true.mp h
        cases h0 : last.lookup pe.1 with
        | none => rw [h0] at hf; cases hf
        | some e0 =>
          rw [h0] at hf
          refine Or.inr (Or.inr ⟨pe.1, pe.2, e0,
            lookup_eq_some_of_mem hnd (by simpa using hpe), h0, ?_⟩)
          simpa [gt_iff_lt] using hf
    · rintro (h | h | ⟨p, e, e0, h1, h2, h3⟩)
      · exact absurd h hL
      · rcases not_and_or.mp ((not_iff_not.mpr (keys_same_iff current last)).mpr h) with hne | hne
        · exact Or.inl (Or.inl ((hadd _).mpr hne))
        · exact Or.inl (Or.inr ((hadd _).mpr hne))
      · refine Or.inr (List.any_eq_true.mpr ⟨(p, e), mem_of_lookup_eq_some h1, ?_⟩)
        simp only [h2]
        simpa [gt_iff_lt] using h3

/-- `check_cloud_changes` returns true precisely when the baseline is empty,
the key sets differ, or some path present in both snapshots has a different
`modified` metadata string. -/
theorem checkCloudChanges_iff (current last : CloudSnap)
    (hnd : (current.map Prod.fst).Nodup) :
    ChangeDetector.checkCloudChanges current last = true ↔
      (last = [] ∨ (¬ ∀ p, p ∈ current.map Prod.fst ↔ p ∈ last.map Prod.fst) ∨
       ∃ p i j, current.lookup p = some i ∧ last.lookup p = some j ∧
         i.modified ≠ j.modified) := by
  by_cases hL : last = []
  · simp [ChangeDetector.checkCloudChanges, hL]
  · rw [ChangeDetector.checkCloudChanges]
    rw [if_neg (by simpa [List.isEmpty_iff] using hL)]
    have hadd : ∀ (l : List String), (!l.isEmpty) = true ↔ ¬(l = []) := by
      intro l
      simp [List.isEmpty_iff]
    rw [show ∀ (c : Bool) (b : Bool), (if c = true then true else b) = (c || b) from
      fun c b => by cases c <;> simp, Bool.or_eq_true]
    constructor
    · rintro (h | h)
      · rw [Bool.or_eq_true] at h
        refine Or.inr (Or.inl fun hall => ?_)
        have := (keys_same_iff current last).mpr hall
        rcases h with h | h
        · exact (hadd _).mp h this.1
        · exact (hadd _).mp h this.2
      · obtain ⟨pi, hpi, hf⟩ := List.any_eq_true.mp h
        cases h0 : last.lookup pi.1 with
        | none => rw [h0] at hf; cases hf
        | some j =>
          rw [h0] at hf
          refine Or.inr (Or.inr ⟨pi.1, pi.2, j,
            lookup_eq_some_of_mem hnd (by simpa using hpi), h0, ?_⟩)
          simpa using hf
    · rintro (h | h | ⟨p, i, j, h1, h2, h3⟩)
      · exact absurd h hL
      · rcases not_and_or.mp ((not_iff_not.mpr (keys_same_iff current last)).mpr h) with hne | hne
        · exact Or.inl (by rw [Bool.or_eq_true]; exact Or.inl ((hadd _).mpr hne))
        · exact Or.inl (by rw [Bool.or_eq_true]; exact Or.inr ((hadd _).mpr hne))
      · refine Or.inr (List.any_eq_true.mpr ⟨(p, i), mem_of_lookup_eq_some h1, ?_⟩)
        simp only [h2]
        simpa using h3

/-! ## Gating of the incremental tick -/

/-- When neither signal fires, `sync` is a no-op: no remote call, baselines kept. -/
theorem sync_noop (st : SyncState) (curL : LocalSnap) (curC : CloudSnap)
    (fs : FsStat) (client : CloudClient)
    (h1 : ChangeDetector.checkLocalChanges curL st.lastLocal = false)
    (h2 : ChangeDetector.checkCloudChanges curC st.lastCloud = false) :
    FileSynchronizer.sync st curL curC fs client = (st, [], true) := by
  simp [FileSynchronizer.sync, h1, h2]

/-- When the local signal fires, the tick's remote calls are exactly those of
`process_local_changes`. -/
theorem sync_ops_of_localChanges (st : SyncState) (curL : LocalSnap) (curC : CloudSnap)
    (fs : FsStat) (client : CloudClient)
    (h : ChangeDetector.checkLocalChanges curL st.lastLocal = true) :
    (FileSynchronizer.sync st curL curC fs client).2.1 =
      (ChangeDetector.processLocalChanges curL curC st.lastLocal fs client).ops := by
  rw [FileSynchronizer.sync]
  cases hok : (ChangeDetector.processLocalChanges curL curC st.lastLocal fs client).ok <;>
    simp [h, hok]

/-! ## Traces of the reconciliation steps -/

/-- With no failing upload, step 3 returns normally and uploads exactly the
iterated paths selected by the step-3 decision. -/
theorem step3Go_ok (client : CloudClient) (cl ll : LocalSnap) (cc : CloudSnap)
    (hload : ∀ p, client.failLoad p = false) (keys : List String) :
    ChangeDetector.step3Go client cl ll cc keys =
      ⟨keys.filterMap (fun r =>
          if ChangeDetector.shouldUpload cl ll cc r then some (CloudOp.load r) else none),
        true⟩ := by
  induction keys with
  | nil => rfl
  | cons r rest ih =>
    rw [ChangeDetector.step3Go, List.filterMap_cons]
    by_cases hs : ChangeDetector.shouldUpload cl ll cc r = true
    · rw [if_pos hs, if_pos hs, if_neg (by simp [hload r]), ih]
    · rw [if_neg hs, if_neg hs, ih]

/-- With no failing delete, step 4 returns normally and deletes exactly the
stored remote paths of the iterated keys. -/
theorem step4Go_ok (client : CloudClient) (cc : CloudSnap)
    (hdel : ∀ p, client.failDelete p = false) (keys : List String) :
    ChangeDetector.step4Go client cc keys =
      ⟨keys.filterMap (fun r =>
          (cc.lookup r).map (fun item => YandexDiskClient.deleteOp item.path)),
        true⟩ := by
  induction keys with
  | nil => rfl
  | cons r rest ih =>
    rw [ChangeDetector.step4Go, List.filterMap_cons]
    cases hr : cc.lookup r with
    | none =>
      dsimp only
      rw [ih]
      rfl
    | some item =>
      dsimp only
      rw [if_neg (by simp [hdel item.path]), ih]
      rfl

/-- Every call attempted by step 4 is a delete, whatever the failure oracle. -/
theorem step4Go_all_deletes (client : CloudClient) (cc : CloudSnap) (keys : List String) :
    ∀ op ∈ (ChangeDetector.step4Go client cc keys).ops, ∃ p b, op = CloudOp.delete p b := by
  induction keys with
  | nil => intro op h; cases h
  | cons r rest ih =>
    intro op h
    rw [ChangeDetector.step4Go] at h
    cases hr : cc.lookup r with
    | none =>
      rw [hr] at h
      dsimp only at h
      exact ih op h
    | some item =>
      rw [hr] at h
      dsimp only at h
      by_cases hf : client.failDelete item.path = true
      · rw [if_pos hf] at h
        rcases List.mem_cons.mp h with h | h
        · exact ⟨item.path, _, h⟩
        · cases h
      · rw [if_neg hf] at h
        rcases List.mem_cons.mp h with h | h
        · exact ⟨item.path, _, h⟩
        · exact ih op h

/-- Every call attempted by step 1 is a rename. -/
theorem step1_all_renames (client : CloudClient) (pairs : List (String × String)) :
    ∀ op ∈ ChangeDetector.step1FolderRenames client pairs, ∃ o n, op = CloudOp.rename o n := by
  intro op h
  rw [ChangeDetector.step1FolderRenames, List.mem_flatMap] at h
  obtain ⟨pr, _, hop⟩ := h
  rw [ChangeDetector.processFolderRename] at hop
  by_cases hr : client.hasRename = true
  · rw [if_pos hr] at hop
    rcases List.mem_cons.mp hop with h | h
    · exact ⟨_, _, h⟩
    · cases h
  · rw [if_neg hr] at hop
    cases hop

/-- Every call attempted by one item of step 2 is a rename, the upload of the
item's new name, or a delete. -/
theorem step2Item_shape (client : CloudClient) (cc : CloudSnap)
    (oldName newName : String) (op : CloudOp)
    (h : op ∈ ChangeDetector.step2Item client cc oldName newName) :
    (∃ o n, op = CloudOp.rename o n) ∨ op = CloudOp.load newName ∨
      ∃ p b, op = CloudOp.delete p b := by
  have htr : ∀ op' ∈ (ChangeDetector.tryRenameCloudFile client oldName newName).1,
      ∃ o n, op' = CloudOp.rename o n := by
    intro op' hop'
    rw [ChangeDetector.tryRenameCloudFile] at hop'
    by_cases hr : client.hasRename = true
    · rw [if_pos hr] at hop'
      rcases List.mem_cons.mp hop' with h' | h'
      · exact ⟨_, _, h'⟩
      · cases h'
    · rw [if_neg hr] at hop'
      cases hop'
  rw [ChangeDetector.step2Item] at h
  by_cases h2 : (ChangeDetector.tryRenameCloudFile client oldName newName).2 = true
  · rw [if_pos h2] at h
    exact Or.inl (htr _ h)
  · rw [if_neg h2] at h
    by_cases hf : client.failLoad newName = true
    · rw [if_pos hf, List.mem_append] at h
      rcases h with h | h
      · exact Or.inl (htr _ h)
      · rcases List.mem_cons.mp h with h' | h'
        · exact Or.inr (Or.inl h')
        · cases h'
    · rw [if_neg hf] at h
      cases hcl : cc.lookup oldName with
      | some item =>
        rw [hcl] at h
        dsimp only at h
        rw [List.mem_append] at h
        rcases h with h | h
        · exact Or.inl (htr _ h)
        · rcases List.mem_cons.mp h with h' | h'
          · exact Or.inr (Or.inl h')
          · rcases List.mem_cons.mp h' with h'' | h''
            · exact Or.inr (Or.inr ⟨item.path, _, h''⟩)
            · cases h''
      | none =>
        rw [hcl] at h
        dsimp only at h
        rw [List.mem_append] at h
        rcases h with h | h
        · exact Or.inl (htr _ h)
        · rcases List.mem_cons.mp h with h' | h'
          · exact Or.inr (Or.inl h')
          · cases h'

/-- The only uploads attempted by step 2 are uploads of the new name of a
detected file-rename pair. -/
theorem step2_load_mem (client : CloudClient) (cc : CloudSnap)
    (pairs : List (String × String)) (relPath : String)
    (h : CloudOp.load relPath ∈ ChangeDetector.step2FileRenames client cc pairs) :
    relPath ∈ pairs.map Prod.snd := by
  rw [ChangeDetector.step2FileRenames, List.mem_flatMap] at h
  obtain ⟨pr, hpr, hop⟩ := h
  rcases step2Item_shape client cc pr.1 pr.2 _ hop with ⟨o, n, hc⟩ | hc | ⟨p, b, hc⟩
  · cases hc
  · have : relPath = pr.2 := by simpa using hc
    exact this ▸ List.mem_map.mpr ⟨pr, hpr, rfl⟩
  · cases hc

/-! ## The step-3 upload decision -/

/-- The step-3 decision for a path of the current local snapshot: upload iff
absent remotely, or changed against the local baseline entry, or strictly
newer than the parsed remote modification time. -/
theorem shouldUpload_iff (cl ll : LocalSnap) (cc : CloudSnap) (relPath : String)
    (e : LocalEntry) (he : cl.lookup relPath = some e) :
    (ChangeDetector.shouldUpload cl ll cc relPath = true ↔
      (relPath ∉ cc.map Prod.fst ∨
       (∃ b, ll.lookup relPath = some b ∧ (b.1 < e.1 ∨ e.2 ≠ b.2)) ∨
       (∃ item, cc.lookup relPath = some item ∧
         ChangeDetector.parseCloudTime item.modified < e.1))) := by
  rw [ChangeDetector.shouldUpload]
  by_cases hin : relPath ∈ cc.map Prod.fst
  · have hc : (cc.map Prod.fst).contains relPath = true := (contains_iff_mem _ _).mpr hin
    rw [if_neg (by rw [hc]; simp)]
    cases hitem : cc.lookup relPath with
    | none =>
      exact absurd ((lookup_isSome_iff cc relPath).mpr hin) (by rw [hitem]; simp)
    | some item =>
      rw [he]
      dsimp only
      cases hb : ll.lookup relPath with
      | none =>
        dsimp only
        constructor
        · intro h
          exact Or.inr (Or.inr ⟨item, rfl, by simpa [gt_iff_lt] using h⟩)
        · rintro (h | ⟨b, hb', _⟩ | ⟨item', hitem', hlt⟩)
          · exact absurd hin h
          · cases hb'
          · cases hitem'
            simpa [gt_iff_lt] using hlt
      | some b =>
        dsimp only
        by_cases hch : (decide (e.1 > b.1) || decide (e.2 ≠ b.2)) = true
        · rw [if_pos hch]
          refine iff_of_true rfl (Or.inr (Or.inl ⟨b, rfl, ?_⟩))
          simpa [gt_iff_lt] using hch
        · rw [if_neg hch]
          constructor
          · intro h
            exact Or.inr (Or.inr ⟨item, rfl, by simpa [gt_iff_lt] using h⟩)
          · rintro (h | ⟨b', hb', hcond⟩ | ⟨item', hitem', hlt⟩)
            · exact absurd hin h
            · cases hb'
              exact absurd (by rcases hcond with h' | h' <;> simp [gt_iff_lt, h']) hch
            · cases hitem'
              simpa [gt_iff_lt] using hlt
  · rw [if_pos (by simp [List.elem_eq_mem, hin])]
    exact iff_of_true rfl (Or.inl hin)

/-! ## Decomposition of `process_local_changes` -/

/-- With no failing upload, the run of `process_local_changes` is the
concatenation of the four step traces, and its outcome is step 4's. -/
theorem processLocalChanges_ops (cl : LocalSnap) (cc : CloudSnap) (ll : LocalSnap)
    (fs : FsStat) (client : CloudClient) (hload : ∀ p, client.failLoad p = false) :
    ChangeDetector.processLocalChanges cl cc ll fs client =
      ⟨ChangeDetector.step1FolderRenames client (ChangeDetector.findRenamedFolders cl cc ll)
        ++ ChangeDetector.step2FileRenames client cc (ChangeDetector.findRenamedFiles cl cc ll fs)
        ++ ((cl.map Prod.fst).filter (fun k =>
            !(ChangeDetector.processedFilesOf
                (ChangeDetector.findRenamedFiles cl cc ll fs)).contains k)).filterMap
          (fun r => if ChangeDetector.shouldUpload cl ll cc r then some (CloudOp.load r) else none)
        ++ (ChangeDetector.step4Deletes client cc (cl.map Prod.fst)
            (ChangeDetector.processedFilesOf (ChangeDetector.findRenamedFiles cl cc ll fs))).ops,
       (ChangeDetector.step4Deletes client cc (cl.map Prod.fst)
            (ChangeDetector.processedFilesOf (ChangeDetector.findRenamedFiles cl cc ll fs))).ok⟩ := by
  simp only [ChangeDetector.processLocalChanges, ChangeDetector.step3Uploads,
    step3Go_ok client cl ll cc hload]
  rfl

/-- Rename failures never escalate: if no upload and no delete call fails,
`process_local_changes` returns normally whatever the rename oracle does. -/
theorem processLocalChanges_ok (cl : LocalSnap) (cc : CloudSnap) (ll : LocalSnap)
    (fs : FsStat) (client : CloudClient) (hload : ∀ p, client.failLoad p = false)
    (hdel : ∀ p, client.failDelete p = false) :
    (ChangeDetector.processLocalChanges cl cc ll fs client).ok = true := by
  rw [processLocalChanges_ops cl cc ll fs client hload]
  rw [ChangeDetector.step4Deletes, step4Go_ok client cc hdel]

/-- The workhorse for the upload claims: under a reliable upload primitive, a
non-processed local path is uploaded somewhere in the run precisely when the
step-3 decision selects it. -/
theorem load_mem_processLocalChanges_iff (cl : LocalSnap) (cc : CloudSnap) (ll : LocalSnap)
    (fs : FsStat) (client : CloudClient) (hload : ∀ p, client.failLoad p = false)
    (relPath : String) (hrel : relPath ∈ cl.map Prod.fst)
    (hnp : relPath ∉ ChangeDetector.processedFilesOf (ChangeDetector.findRenamedFiles cl cc ll fs)) :
    (CloudOp.load relPath ∈ (ChangeDetector.processLocalChanges cl cc ll fs client).ops ↔
      ChangeDetector.shouldUpload cl ll cc relPath = true) := by
  rw [processLocalChanges_ops cl cc ll fs client hload]
  dsimp only
  simp only [List.mem_append]
  constructor
  · rintro (((h | h) | h) | h)
    · obtain ⟨o, n, hc⟩ := step1_all_renames client _ _ h
      cases hc
    · have hmem := step2_load_mem client cc _ relPath h
      exact absurd (by
        rw [ChangeDetector.processedFilesOf, List.mem_append]
        exact Or.inl hmem) hnp
    · obtain ⟨r, hr, heq⟩ := List.mem_filterMap.mp h
      by_cases hs : ChangeDetector.shouldUpload cl ll cc r = true
      · rw [if_pos hs] at heq
        have : r = relPath := by simpa using heq
        exact this ▸ hs
      · rw [if_neg hs] at heq
        cases heq
    · rw [ChangeDetector.step4Deletes] at h
      obtain ⟨p, b, hc⟩ := step4Go_all_deletes client cc _ _ h
      cases hc
  · intro hs
    refine Or.inl (Or.inr (List.mem_filterMap.mpr ⟨relPath, ?_, by rw [if_pos hs]⟩))
    rw [List.mem_filter]
    exact ⟨hrel, by simp [List.elem_eq_mem, hnp]⟩

/-! ## Stability of the change signals on an unchanged snapshot -/

/-- A nonempty local snapshot compared with itself reports no change. -/
theorem checkLocalChanges_self (l : LocalSnap) (hnd : (l.map Prod.fst).Nodup)
    (hne : l ≠ []) : ChangeDetector.checkLocalChanges l l = false := by
  rw [ChangeDetector.checkLocalChanges,
    if_neg (by simpa [List.isEmpty_iff] using hne), bool_if_chain]
  have hfil : (l.map Prod.fst).filter (fun k => !(l.map Prod.fst).contains k) = [] := by
    rw [List.filter_eq_nil_iff]
    intro a ha
    simp [ha]
  rw [hfil]
  simp only [List.isEmpty_nil, Bool.not_true, Bool.false_or]
  rw [List.any_eq_false]
  intro pe hpe
  rw [lookup_eq_some_of_mem hnd (show (pe.1, pe.2) ∈ l by simpa using hpe)]
  simp

/-- A nonempty cloud snapshot compared with itself reports no change. -/
theorem checkCloudChanges_self (l : CloudSnap) (hnd : (l.map Prod.fst).Nodup)
    (hne : l ≠ []) : ChangeDetector.checkCloudChanges l l = false := by
  rw [ChangeDetector.checkCloudChanges,
    if_neg (by simpa [List.isEmpty_iff] using hne)]
  have hfil : (l.map Prod.fst).filter (fun k => !(l.map Prod.fst).contains k) = [] := by
    rw [List.filter_eq_nil_iff]
    intro a ha
    simp [ha]
  rw [hfil]
  simp only [List.isEmpty_nil, Bool.not_true, Bool.or_self, Bool.false_eq_true, if_false]
  rw [List.any_eq_false]
  intro pe hpe
  rw [lookup_eq_some_of_mem hnd (show (pe.1, pe.2) ∈ l by simpa using hpe)]
  simp

/-! ## Ordering of the folder renames -/

/-- The sorted folder-rename list is non-increasing in the depth of the old
folder path. -/
theorem sortFolderRenames_sorted (pairs : List (String × String)) :
    (ChangeDetector.sortFolderRenames pairs).Pairwise
      (fun a b => ChangeDetector.sepCount b.1 ≤ ChangeDetector.sepCount a.1) := by
  haveI : IsTotal (String × String)
      (fun a b => ChangeDetector.sepCount b.1 ≤ ChangeDetector.sepCount a.1) :=
    ⟨fun a b => le_total _ _⟩
  haveI : IsTrans (String × String)
      (fun a b => ChangeDetector.sepCount b.1 ≤ ChangeDetector.sepCount a.1) :=
    ⟨fun _ _ _ h1 h2 => le_trans h2 h1⟩
  exact List.sorted_insertionSort _ pairs

/-- Sorting does not lose or invent rename pairs. -/
theorem sortFolderRenames_perm (pairs : List (String × String)) :
    (ChangeDetector.sortFolderRenames pairs).Perm pairs :=
  List.perm_insertionSort _ pairs

/-- With a rename-capable client, step 1 issues exactly one rename per
detected pair, in the sorted order. -/
theorem step1_eq_map (client : CloudClient) (hr : client.hasRename = true)
    (pairs : List (String × String)) :
    ChangeDetector.step1FolderRenames client pairs =
      (ChangeDetector.sortFolderRenames pairs).map (fun pr =>
        CloudOp.rename ("/" ++ client.cloudFolder ++ "/" ++ pr.1)
          ("/" ++ client.cloudFolder ++ "/" ++ pr.2)) := by
  rw [ChangeDetector.step1FolderRenames]
  induction ChangeDetector.sortFolderRenames pairs with
  | nil => rfl
  | cons a t ih =>
    rw [List.flatMap_cons, List.map_cons, ih, ChangeDetector.processFolderRename, if_pos hr]
    rfl

/-! ## Soundness of file-rename detection -/

/-- Every pair emitted by the greedy matching loop pairs a disappeared path
that is still a remote key with the first appeared path that exists on disk
and has an equal identity signature. -/
theorem findRenamedFilesAux_sound (fs : FsStat) (cloudKeys : List String) (ll : LocalSnap) :
    ∀ (dis app : List String) (oldName newName : String),
      (oldName, newName) ∈ ChangeDetector.findRenamedFilesAux fs cloudKeys ll dis app →
      oldName ∈ dis ∧ newName ∈ app ∧ oldName ∈ cloudKeys ∧
        ChangeDetector.getFileIdentifier oldName ll =
          ChangeDetector.calculateFileIdentifier fs newName ∧
        (fs newName).isSome = true := by
  intro dis
  induction dis with
  | nil =>
    intro app o n h
    cases h
  | cons d rest ih =>
    intro app o n h
    rw [ChangeDetector.findRenamedFilesAux] at h
    by_cases hcl : cloudKeys.contains d = true
    · rw [if_neg (by rw [hcl]; simp)] at h
      dsimp only at h
      cases hf : app.find? (fun newName =>
          (fs newName).isSome &&
            ChangeDetector.calculateFileIdentifier fs newName ==
              ChangeDetector.getFileIdentifier d ll) with
      | some newName' =>
        rw [hf] at h
        have hp := List.find?_some hf
        rw [Bool.and_eq_true] at hp
        rcases List.mem_cons.mp h with h' | h'
        · injection h' with h1 h2
          subst h1
          subst h2
          exact ⟨List.mem_cons_self _ _, List.mem_of_find?_eq_some hf,
            (contains_iff_mem _ _).mp hcl, (beq_iff_eq.mp hp.2).symm, hp.1⟩
        · obtain ⟨h1, h2, h3, h4, h5⟩ := ih _ _ _ h'
          exact ⟨List.mem_cons_of_mem _ h1, List.mem_of_mem_erase h2, h3, h4, h5⟩
      | none =>
        rw [hf] at h
        obtain ⟨h1, h2, h3, h4, h5⟩ := ih _ _ _ h
        exact ⟨List.mem_cons_of_mem _ h1, h2, h3, h4, h5⟩
    · rw [if_pos (by simpa [List.elem_eq_mem] using hcl)] at h
      obtain ⟨h1, h2, h3, h4, h5⟩ := ih _ _ _ h
      exact ⟨List.mem_cons_of_mem _ h1, h2, h3, h4, h5⟩

/-- Soundness of `_find_renamed_files`: every emitted pair couples a
disappeared path that is still a remote key with an appeared path whose fresh
identity signature equals the disappeared path's baseline signature. -/
theorem findRenamedFiles_sound (cl : LocalSnap) (cc : CloudSnap) (ll : LocalSnap)
    (fs : FsStat) (oldName newName : String)
    (h : (oldName, newName) ∈ ChangeDetector.findRenamedFiles cl cc ll fs) :
    (oldName ∈ ll.map Prod.fst ∧ oldName ∉ cl.map Prod.fst) ∧
    (newName ∈ cl.map Prod.fst ∧ newName ∉ ll.map Prod.fst) ∧
    oldName ∈ cc.map Prod.fst ∧
    ChangeDetector.getFileIdentifier oldName ll =
      ChangeDetector.calculateFileIdentifier fs newName ∧
    (fs newName).isSome = true := by
  simp only [ChangeDetector.findRenamedFiles] at h
  obtain ⟨h1, h2, h3, h4, h5⟩ := findRenamedFilesAux_sound fs _ ll _ _ _ _ h
  rw [List.mem_filter] at h1 h2
  refine ⟨⟨h1.1, ?_⟩, ⟨h2.1, ?_⟩, h3, h4, h5⟩
  · have h12 := h1.2
    simp only [List.elem_eq_mem, Bool.not_eq_true', decide_eq_false_iff_not] at h12
    exact h12
  · have h22 := h2.2
    simp only [List.elem_eq_mem, Bool.not_eq_true', decide_eq_false_iff_not] at h22
    exact h22

/-- The heuristic boundary: deleting a file and independently adding an
unrelated file of the same size but a different modification time is never
classified as a rename. -/
theorem rename_boundary (t1 t2 : ℚ) (sz : ℕ) (A B : String) (cc : CloudSnap) (fs : FsStat)
    (hne : t1 ≠ t2) (hAB : A ≠ B) (hfs : fs B = some (t2, sz)) :
    ChangeDetector.findRenamedFiles [(B, (t2, sz))] cc [(A, (t1, sz))] fs = [] := by
  simp only [ChangeDetector.findRenamedFiles]
  have hdis : (([(A, (t1, sz))] : LocalSnap).map Prod.fst).filter
      (fun k => !((([(B, (t2, sz))] : LocalSnap).map Prod.fst).contains k)) = [A] := by
    simp [List.elem_eq_mem, hAB]
  have happ : (([(B, (t2, sz))] : LocalSnap).map Prod.fst).filter
      (fun k => !((([(A, (t1, sz))] : LocalSnap).map Prod.fst).contains k)) = [B] := by
    simp [List.elem_eq_mem, Ne.symm hAB]
  rw [hdis, happ, ChangeDetector.findRenamedFilesAux]
  by_cases hcl : (cc.map Prod.fst).contains A = true
  · rw [if_neg (by rw [hcl]; simp)]
    dsimp only
    have hc : ChangeDetector.calculateFileIdentifier fs B = some (sz, t2) := by
      rw [ChangeDetector.calculateFileIdentifier, hfs]
    have hg : ChangeDetector.getFileIdentifier A [(A, (t1, sz))] = some (sz, t1) := by
      rw [ChangeDetector.getFileIdentifier, lookup_cons, if_pos (beq_iff_eq.mpr rfl)]
    have hpred : ((fs B).isSome &&
        (ChangeDetector.calculateFileIdentifier fs B ==
          ChangeDetector.getFileIdentifier A [(A, (t1, sz))])) = false := by
      rw [hc, hg]
      have hbe : ((some ((sz : ℕ), (t2 : ℚ)) : Option (ℕ × ℚ)) == some (sz, t1)) = false :=
        beq_eq_false_iff_ne.mpr (by simp [Ne.symm hne])
      rw [hbe, Bool.and_false]
    rw [List.find?_cons_of_neg _ (by rw [hpred]; simp), List.find?_nil,
      ChangeDetector.findRenamedFilesAux]
  · rw [if_pos (by simpa [List.elem_eq_mem] using hcl), ChangeDetector.findRenamedFilesAux]

/-! ## The remote snapshot built from the remote enumeration -/

/-- `scan_cloud_files_with_retry` keeps exactly the file-typed items, keyed by
the stripped path. -/
theorem scanCloudFiles_eq (cloudFolder : String) (items : List CloudItem) :
    scanCloudFiles cloudFolder items =
      (items.filter (fun item => item.type == "file")).map
        (fun item => (item.path.replace ("disk:/" ++ cloudFolder ++ "/") "", item)) := by
  induction items with
  | nil => rfl
  | cons i t ih =>
    rw [scanCloudFiles] at ih ⊢
    rw [List.filterMap_cons, List.filter_cons]
    by_cases hi : (i.type == "file") = true
    · rw [if_pos hi, if_pos hi, List.map_cons, ih]
    · rw [if_neg hi, if_neg hi, ih]

/-! ## Totality of the timestamp parse -/

/-- Looking a key up in the raw view of a present-metadata snapshot. -/
theorem lookup_map_toRaw (cc : CloudSnap) (r : String) :
    (cc.map (fun pi => (pi.1, CloudItem.toRaw pi.2))).lookup r =
      (cc.lookup r).map CloudItem.toRaw := by
  induction cc with
  | nil => rfl
  | cons e t ih =>
    obtain ⟨k, v⟩ := e
    rw [List.map_cons, lookup_cons, lookup_cons]
    by_cases h : (r == k) = true
    · rw [if_pos h, if_pos h]
      rfl
    · rw [if_neg h, if_neg h, ih]

/-- On a snapshot whose items all carry `modified`, the raw upload decision is
the pipeline's decision (never a `KeyError`). -/
theorem shouldUploadRaw_toRaw (cl ll : LocalSnap) (cc : CloudSnap) (relPath : String) :
    ChangeDetector.shouldUploadRaw cl ll
        (cc.map (fun pi => (pi.1, CloudItem.toRaw pi.2))) relPath =
      some (ChangeDetector.shouldUpload cl ll cc relPath) := by
  rw [ChangeDetector.shouldUploadRaw, ChangeDetector.shouldUpload]
  have hkeys : (cc.map (fun pi => (pi.1, CloudItem.toRaw pi.2))).map Prod.fst =
      cc.map Prod.fst := by
    rw [List.map_map]
    rfl
  rw [hkeys, lookup_map_toRaw]
  by_cases hin : ((cc.map Prod.fst).contains relPath) = true
  · rw [if_neg (by rw [hin]; simp), if_neg (by rw [hin]; simp)]
    cases hcl : cl.lookup relPath with
    | none =>
      cases hcc : cc.lookup relPath <;> rfl
    | some e =>
      cases hcc : cc.lookup relPath with
      | none => rfl
      | some item =>
        dsimp only [Option.map, CloudItem.toRaw]
        cases hll : ll.lookup relPath with
        | none => rfl
        | some b =>
          dsimp only
          split <;> rfl
  · rw [if_pos (by simpa using hin), if_pos (by simpa using hin)]

/-- The pipeline's step-3 loop is the faithful raw loop restricted to
snapshots whose items all carry `modified` metadata. -/
theorem step3GoRaw_agrees (client : CloudClient) (cl ll : LocalSnap) (cc : CloudSnap)
    (keys : List String) :
    ChangeDetector.step3GoRaw client cl ll
        (cc.map (fun pi => (pi.1, CloudItem.toRaw pi.2))) keys =
      ChangeDetector.step3Go client cl ll cc keys := by
  induction keys with
  | nil => rfl
  | cons r rest ih =>
    rw [ChangeDetector.step3GoRaw, ChangeDetector.step3Go, shouldUploadRaw_toRaw]
    cases hs : ChangeDetector.shouldUpload cl ll cc r with
    | true =>
      dsimp only
      rw [if_pos rfl]
      by_cases hf : client.failLoad r = true
      · rw [if_pos hf, if_pos hf]
      · rw [if_neg hf, if_neg hf, ih]
    | false =>
      dsimp only
      rw [if_neg (by simp), ih]

/-! ## The claims -/

/-- C1, counterexample. With a client whose upload of `b.txt` raises, a
reconciliation run over two new local files aborts: the exception escalates
out of `process_local_changes` (`ok = false`) and the second item `c.txt` is
never attempted — refuting the claim that the failure of any single item
(including an upload) is caught at the item level with the remaining items
still attempted and the run returning normally. -/
theorem C1_counterexample :
    (ChangeDetector.processLocalChanges
        [("b.txt", ((1 : ℚ), 10)), ("c.txt", ((1 : ℚ), 10))] [] []
        fsNone failLoadBClient).ok = false ∧
    CloudOp.load "c.txt" ∉
      (ChangeDetector.processLocalChanges
        [("b.txt", ((1 : ℚ), 10)), ("c.txt", ((1 : ℚ), 10))] [] []
        fsNone failLoadBClient).ops :=
  ⟨by decide, by decide⟩

/-- C1 (amended): only the rename steps catch per-item failures. Whatever the
rename-failure oracle does — folder renames and file renames may fail
arbitrarily — the run still returns normally provided no upload and no delete
call fails; an upload or delete failure, by contrast, escalates out of the
reconciliation (see the counterexample). -/
theorem C1_rename_failures_contained (cl : LocalSnap) (cc : CloudSnap) (ll : LocalSnap)
    (fs : FsStat) (client : CloudClient) (hload : ∀ p, client.failLoad p = false)
    (hdel : ∀ p, client.failDelete p = false) :
    (ChangeDetector.processLocalChanges cl cc ll fs client).ok = true :=
  processLocalChanges_ok cl cc ll fs client hload hdel

/-- C1 witness: a run in which a file-rename item actually fails (the client
raises on every rename, forcing the fallback) still returns normally. -/
theorem C1_witness :
    (ChangeDetector.processLocalChanges [("b.txt", ((5 : ℚ), 100))] [("a.txt", itemA)]
        [("a.txt", ((5 : ℚ), 100))] fsB failRenameClient).ok = true :=
  C1_rename_failures_contained _ _ _ _ _ (fun _ => rfl) (fun _ => rfl)

/-- C2, counterexample. Two cloud snapshots with equal keys and equal
`modified` strings but different sizes: the claimed signal is true (a shared
path has a differing size) yet `check_cloud_changes` returns false — on the
cloud side the code compares only the `modified` metadata string. -/
theorem C2_counterexample :
    ChangeDetector.checkCloudChanges [("a.txt", itemA)]
        [("a.txt", { itemA with size := 7 })] = false ∧
    specCloudChangeSignal [("a.txt", itemA)] [("a.txt", { itemA with size := 7 })] :=
  ⟨by decide,
   Or.inr (Or.inr ⟨"a.txt", itemA, { itemA with size := 7 }, by decide, by decide,
     Or.inl (by decide)⟩)⟩

/-- C2 (amended): the local signal is true iff the baseline is empty, the key
sets differ, or some shared path has a strictly newer modification time or a
different size; the cloud signal is true iff the baseline is empty, the key
sets differ, or some shared path's `modified` string differs (size and
timestamp order are not consulted); a tick with both signals false is a
no-op, and a tick whose local signal fires attempts exactly the
reconciliation's remote calls. -/
theorem C2_change_signals :
    (∀ (current last : LocalSnap), (current.map Prod.fst).Nodup →
      (ChangeDetector.checkLocalChanges current last = true ↔
        (last = [] ∨ (¬ ∀ p, p ∈ current.map Prod.fst ↔ p ∈ last.map Prod.fst) ∨
         ∃ p e e0, current.lookup p = some e ∧ last.lookup p = some e0 ∧
           (e0.1 < e.1 ∨ e.2 ≠ e0.2)))) ∧
    (∀ (current last : CloudSnap), (current.map Prod.fst).Nodup →
      (ChangeDetector.checkCloudChanges current last = true ↔
        (last = [] ∨ (¬ ∀ p, p ∈ current.map Prod.fst ↔ p ∈ last.map Prod.fst) ∨
         ∃ p i j, current.lookup p = some i ∧ last.lookup p = some j ∧
           i.modified ≠ j.modified))) ∧
    (∀ (st : SyncState) (curL : LocalSnap) (curC : CloudSnap) (fs : FsStat)
        (client : CloudClient),
      ChangeDetector.checkLocalChanges curL st.lastLocal = false →
      ChangeDetector.checkCloudChanges curC st.lastCloud = false →
      FileSynchronizer.sync st curL curC fs client = (st, [], true)) ∧
    (∀ (st : SyncState) (curL : LocalSnap) (curC : CloudSnap) (fs : FsStat)
        (client : CloudClient),
      ChangeDetector.checkLocalChanges curL st.lastLocal = true →
      (FileSynchronizer.sync st curL curC fs client).2.1 =
        (ChangeDetector.processLocalChanges curL curC st.lastLocal fs client).ops) :=
  ⟨checkLocalChanges_iff, checkCloudChanges_iff, sync_noop, sync_ops_of_localChanges⟩

/-- C2 witness: a strictly newer local mtime fires the local signal, and a
tick with both signals false is a no-op. -/
theorem C2_witness :
    ChangeDetector.checkLocalChanges [("a.txt", ((2 : ℚ), 5))]
        [("a.txt", ((1 : ℚ), 5))] = true ∧
    FileSynchronizer.sync ⟨[("a.txt", ((1 : ℚ), 5))], [("x", itemA)]⟩
        [("a.txt", ((1 : ℚ), 5))] [("x", itemA)] fsNone okClient =
      (⟨[("a.txt", ((1 : ℚ), 5))], [("x", itemA)]⟩, [], true) :=
  ⟨(C2_change_signals.1 _ _ (by decide)).mpr
      (Or.inr (Or.inr ⟨"a.txt", ((2 : ℚ), 5), ((1 : ℚ), 5), by decide, by decide,
        Or.inl (by norm_num)⟩)),
   C2_change_signals.2.2.1 _ _ _ _ _ (by decide) (by decide)⟩

/-- C3: in a tick in which at least one change signal fired, if the
reconciliation step returns normally then both baselines are replaced by the
freshly observed snapshots and the tick completes — independently of which
individual (caught) items failed inside the run. -/
theorem C3_baselines_replaced (st : SyncState) (curL : LocalSnap) (curC : CloudSnap)
    (fs : FsStat) (client : CloudClient)
    (hsig : ChangeDetector.checkLocalChanges curL st.lastLocal = true ∨
            ChangeDetector.checkCloudChanges curC st.lastCloud = true)
    (hok : (ChangeDetector.processLocalChanges curL curC st.lastLocal fs client).ok = true) :
    (FileSynchronizer.sync st curL curC fs client).1 = ⟨curL, curC⟩ ∧
    (FileSynchronizer.sync st curL curC fs client).2.2 = true := by
  by_cases hlc : ChangeDetector.checkLocalChanges curL st.lastLocal = true
  · constructor <;> simp [FileSynchronizer.sync, hlc, hok]
  · have hlc' : ChangeDetector.checkLocalChanges curL st.lastLocal = false := by
      cases h : ChangeDetector.checkLocalChanges curL st.lastLocal
      · rfl
      · exact absurd h hlc
    have hcc : ChangeDetector.checkCloudChanges curC st.lastCloud = true := by
      rcases hsig with h | h
      · exact absurd h hlc
      · exact h
    constructor <;> simp [FileSynchronizer.sync, hlc', hcc]

/-- C3 witness: a tick whose only reconciliation item is a file rename that
fails (falling back to upload+delete) still replaces both baselines. -/
theorem C3_witness :
    (FileSynchronizer.sync ⟨[("a.txt", ((5 : ℚ), 100))], [("a.txt", itemA)]⟩
        [("b.txt", ((5 : ℚ), 100))] [("a.txt", itemA)] fsB failRenameClient).1 =
      ⟨[("b.txt", ((5 : ℚ), 100))], [("a.txt", itemA)]⟩ ∧
    (FileSynchronizer.sync ⟨[("a.txt", ((5 : ℚ), 100))], [("a.txt", itemA)]⟩
        [("b.txt", ((5 : ℚ), 100))] [("a.txt", itemA)] fsB failRenameClient).2.2 = true :=
  C3_baselines_replaced _ _ _ _ _ (Or.inl (by decide)) (by decide)

/-- C4: every detected file-rename pair couples a disappeared path (in the
baseline, not in the current local snapshot) that is still a key of the
current remote snapshot with an appeared path (current, not baseline) whose
fresh identity signature `(size, mtime)` equals the baseline signature of the
disappeared path; matching is greedy first-found (a matched appeared path is
removed from further consideration); and in particular deleting a file and
independently adding an unrelated file of the same size but a different
modification time is never classified as a rename. -/
theorem C4_rename_pairing :
    (∀ (cl : LocalSnap) (cc : CloudSnap) (ll : LocalSnap) (fs : FsStat)
        (oldName newName : String),
      (oldName, newName) ∈ ChangeDetector.findRenamedFiles cl cc ll fs →
      (oldName ∈ ll.map Prod.fst ∧ oldName ∉ cl.map Prod.fst) ∧
      (newName ∈ cl.map Prod.fst ∧ newName ∉ ll.map Prod.fst) ∧
      oldName ∈ cc.map Prod.fst ∧
      ChangeDetector.getFileIdentifier oldName ll =
        ChangeDetector.calculateFileIdentifier fs newName ∧
      (fs newName).isSome = true) ∧
    (∀ (fs : FsStat) (cloudKeys : List String) (ll : LocalSnap) (d : String)
        (rest app : List String) (n : String),
      cloudKeys.contains d = true →
      app.find? (fun newName => (fs newName).isSome &&
          (ChangeDetector.calculateFileIdentifier fs newName ==
            ChangeDetector.getFileIdentifier d ll)) = some n →
      ChangeDetector.findRenamedFilesAux fs cloudKeys ll (d :: rest) app =
        (d, n) :: ChangeDetector.findRenamedFilesAux fs cloudKeys ll rest (app.erase n)) ∧
    (∀ (t1 t2 : ℚ) (sz : ℕ) (A B : String) (cc : CloudSnap) (fs : FsStat),
      t1 ≠ t2 → A ≠ B → fs B = some (t2, sz) →
      ChangeDetector.findRenamedFiles [(B, (t2, sz))] cc [(A, (t1, sz))] fs = []) := by
  refine ⟨findRenamedFiles_sound, ?_, rename_boundary⟩
  intro fs cloudKeys ll d rest app n hcl hfind
  rw [ChangeDetector.findRenamedFilesAux, if_neg (by rw [hcl]; simp)]
  dsimp only
  rw [hfind]

/-- C4 witness: a genuine rename (same signature, still present remotely) is
paired, and the paired signature equality is exactly the one claimed. -/
theorem C4_witness :
    ChangeDetector.getFileIdentifier "a.txt" [("a.txt", ((5 : ℚ), 100))] =
      ChangeDetector.calculateFileIdentifier fsB "b.txt" :=
  (C4_rename_pairing.1 [("b.txt", ((5 : ℚ), 100))] [("a.txt", itemA)]
    [("a.txt", ((5 : ℚ), 100))] fsB "a.txt" "b.txt" (by decide)).2.2.2.1

/-- C5: under a reliable upload primitive, a local path not processed by the
rename steps is uploaded in the run iff it is absent from the current remote
snapshot, or its baseline entry exists and differs (strictly newer mtime or
different size), or its local mtime is strictly newer than the parsed remote
modification time; otherwise no upload is issued for it. -/
theorem C5_upload_decision (cl : LocalSnap) (cc : CloudSnap) (ll : LocalSnap)
    (fs : FsStat) (client : CloudClient) (hload : ∀ p, client.failLoad p = false)
    (relPath : String) (e : LocalEntry) (he : cl.lookup relPath = some e)
    (hnp : relPath ∉
      ChangeDetector.processedFilesOf (ChangeDetector.findRenamedFiles cl cc ll fs)) :
    (CloudOp.load relPath ∈ (ChangeDetector.processLocalChanges cl cc ll fs client).ops ↔
      (relPath ∉ cc.map Prod.fst ∨
       (∃ b, ll.lookup relPath = some b ∧ (b.1 < e.1 ∨ e.2 ≠ b.2)) ∨
       (∃ item, cc.lookup relPath = some item ∧
         ChangeDetector.parseCloudTime item.modified < e.1))) := by
  have hrel : relPath ∈ cl.map Prod.fst :=
    (lookup_isSome_iff cl relPath).mp (by rw [he]; rfl)
  rw [load_mem_processLocalChanges_iff cl cc ll fs client hload relPath hrel hnp]
  exact shouldUpload_iff cl ll cc relPath e he

/-- C5 witness: a new local file absent from the remote snapshot is uploaded. -/
theorem C5_witness :
    CloudOp.load "n.txt" ∈
      (ChangeDetector.processLocalChanges [("n.txt", ((1 : ℚ), 10))] [] []
        fsNone okClient).ops :=
  (C5_upload_decision _ _ _ _ _ (fun _ => rfl) "n.txt" ((1 : ℚ), 10) (by decide)
    (by decide)).mpr (Or.inl (by decide))

/-- C6: for every list of detected folder-rename pairs and a rename-capable
client, step 1 issues exactly one rename per pair, ordered by non-increasing
depth of the old folder path (number of `/` separators), so a renamed child
folder is always processed before its renamed parent. -/
theorem C6_folder_rename_order (client : CloudClient) (hr : client.hasRename = true)
    (folderRenames : List (String × String)) :
    (ChangeDetector.sortFolderRenames folderRenames).Perm folderRenames ∧
    (ChangeDetector.sortFolderRenames folderRenames).Pairwise
      (fun a b => ChangeDetector.sepCount b.1 ≤ ChangeDetector.sepCount a.1) ∧
    ChangeDetector.step1FolderRenames client folderRenames =
      (ChangeDetector.sortFolderRenames folderRenames).map (fun pr =>
        CloudOp.rename ("/" ++ client.cloudFolder ++ "/" ++ pr.1)
          ("/" ++ client.cloudFolder ++ "/" ++ pr.2)) :=
  ⟨sortFolderRenames_perm folderRenames, sortFolderRenames_sorted folderRenames,
   step1_eq_map client hr folderRenames⟩

/-- C6 witness: renaming a parent folder and one of its children in the same
tick issues the child's (deeper) rename first. -/
theorem C6_witness :
    ChangeDetector.step1FolderRenames okClient [("a", "b"), ("a/c", "d")] =
      [CloudOp.rename "/sync/a/c" "/sync/d", CloudOp.rename "/sync/a" "/sync/b"] := by
  rw [(C6_folder_rename_order okClient rfl [("a", "b"), ("a/c", "d")]).2.2]
  decide

/-- C7: with a reliable delete primitive, step 4 returns normally and a
permanent delete of a stored remote path is issued exactly for the keys of
the current remote snapshot that are absent from the current local key set
and not processed by the rename steps. -/
theorem C7_deletions (client : CloudClient) (cc : CloudSnap)
    (currentLocalKeys processed : List String)
    (hdel : ∀ p, client.failDelete p = false) :
    (ChangeDetector.step4Deletes client cc currentLocalKeys processed).ok = true ∧
    (∀ op ∈ (ChangeDetector.step4Deletes client cc currentLocalKeys processed).ops,
      ∃ rel item, cc.lookup rel = some item ∧
        op = CloudOp.delete item.path YandexDiskClient.deletePermanently ∧
        rel ∈ cc.map Prod.fst ∧ rel ∉ currentLocalKeys ∧ rel ∉ processed) ∧
    (∀ rel, rel ∈ cc.map Prod.fst → rel ∉ currentLocalKeys → rel ∉ processed →
      ∃ item, cc.lookup rel = some item ∧
        CloudOp.delete item.path YandexDiskClient.deletePermanently ∈
          (ChangeDetector.step4Deletes client cc currentLocalKeys processed).ops) := by
  rw [ChangeDetector.step4Deletes, step4Go_ok client cc hdel]
  refine ⟨rfl, ?_, ?_⟩
  · intro op hop
    obtain ⟨rel, hrelmem, hfm⟩ := List.mem_filterMap.mp hop
    rw [List.mem_filter, Bool.and_eq_true] at hrelmem
    cases hlk : cc.lookup rel with
    | none =>
      rw [hlk] at hfm
      cases hfm
    | some item =>
      rw [hlk] at hfm
      refine ⟨rel, item, hlk, ?_, hrelmem.1, ?_, ?_⟩
      · have : YandexDiskClient.deleteOp item.path = op := by
          injection hfm
        rw [← this, YandexDiskClient.deleteOp]
      · have h2 := hrelmem.2.1
        simp only [List.elem_eq_mem, Bool.not_eq_true', decide_eq_false_iff_not] at h2
        exact h2
      · have h2 := hrelmem.2.2
        simp only [List.elem_eq_mem, Bool.not_eq_true', decide_eq_false_iff_not] at h2
        exact h2
  · intro rel hmem hloc hproc
    obtain ⟨item, hitem⟩ : ∃ item, cc.lookup rel = some item := by
      cases hlk : cc.lookup rel with
      | none => exact absurd ((lookup_isSome_iff cc rel).mpr hmem) (by rw [hlk]; simp)
      | some item => exact ⟨item, rfl⟩
    refine ⟨item, hitem, List.mem_filterMap.mpr ⟨rel, ?_, ?_⟩⟩
    · rw [List.mem_filter, Bool.and_eq_true]
      exact ⟨hmem, by simp [List.elem_eq_mem, hloc], by simp [List.elem_eq_mem, hproc]⟩
    · rw [hitem]
      rfl

/-- C7 witness: a remote-only file is deleted permanently by step 4. -/
theorem C7_witness :
    ∃ item, (([("a.txt", itemA)] : CloudSnap).lookup "a.txt") = some item ∧
      CloudOp.delete item.path YandexDiskClient.deletePermanently ∈
        (ChangeDetector.step4Deletes okClient [("a.txt", itemA)] [] []).ops :=
  (C7_deletions okClient [("a.txt", itemA)] [] [] (fun _ => rfl)).2.2 "a.txt"
    (by decide) (by decide) (by decide)

/-- C8, counterexample. A completed tick can commit an empty local baseline
together with a nonempty remote baseline; a second tick whose observed
snapshots are identical to that committed baseline is not mutation-free: the
empty local baseline makes `check_local_changes` fire and step 4 re-issues
the delete. -/
theorem C8_counterexample :
    (FileSynchronizer.sync ⟨[("x", ((1 : ℚ), 1))], []⟩ [] [("a.txt", itemA)]
        fsNone okClient).2.2 = true ∧
    (FileSynchronizer.sync ⟨[("x", ((1 : ℚ), 1))], []⟩ [] [("a.txt", itemA)]
        fsNone okClient).1 = ⟨[], [("a.txt", itemA)]⟩ ∧
    (FileSynchronizer.sync ⟨[], [("a.txt", itemA)]⟩ [] [("a.txt", itemA)]
        fsNone okClient).2.1 ≠ [] :=
  ⟨by decide, by decide, by decide⟩

/-- C8 (amended): after a completed incremental tick that committed the
observed snapshots as the baselines, a second tick observing snapshots
identical to that committed baseline issues zero remote calls — provided the
committed local snapshot is non-empty (the empty-local-baseline rule
otherwise fires the signal on every tick, see the counterexample). -/
theorem C8_idempotence (st : SyncState) (curL : LocalSnap) (curC : CloudSnap)
    (fs fs' : FsStat) (client client' : CloudClient)
    (hndL : (curL.map Prod.fst).Nodup) (hndC : (curC.map Prod.fst).Nodup)
    (hfirst : (FileSynchronizer.sync st curL curC fs client).2.2 = true)
    (hcommit : (FileSynchronizer.sync st curL curC fs client).1 = ⟨curL, curC⟩)
    (hL : curL ≠ []) :
    FileSynchronizer.sync ⟨curL, curC⟩ curL curC fs' client' = (⟨curL, curC⟩, [], true) := by
  have hlc : ChangeDetector.checkLocalChanges curL curL = false :=
    checkLocalChanges_self curL hndL hL
  by_cases hC : curC = []
  · subst hC
    have hcc : ChangeDetector.checkCloudChanges [] ([] : CloudSnap) = true := rfl
    simp [FileSynchronizer.sync, hlc, hcc]
  · exact sync_noop _ _ _ _ _ hlc (checkCloudChanges_self curC hndC hC)

/-- C8 witness: after a no-op first tick whose baselines equal the
observations, the second tick is also a no-op with zero remote calls. -/
theorem C8_witness :
    FileSynchronizer.sync ⟨[("x", ((1 : ℚ), 1))], [("a.txt", itemA)]⟩
        [("x", ((1 : ℚ), 1))] [("a.txt", itemA)] fsNone okClient =
      (⟨[("x", ((1 : ℚ), 1))], [("a.txt", itemA)]⟩, [], true) :=
  C8_idempotence ⟨[("x", ((1 : ℚ), 1))], [("a.txt", itemA)]⟩ _ _ fsNone fsNone
    okClient okClient (by decide) (by decide) (by decide) (by decide) (by decide)

/-- C9: the remote snapshot contains exactly the enumerated items whose type
is `file`, keyed by the path with the cloud-folder prefix stripped
(`replace`); directory entries are never keys; and a remote change that only
adds or removes directory entries leaves the snapshot — hence the cloud
change signal — unchanged. -/
theorem C9_remote_snapshot (cloudFolder : String) (items : List CloudItem) :
    (∀ (p : String) (item : CloudItem),
      (p, item) ∈ scanCloudFiles cloudFolder items ↔
        (item ∈ items ∧ item.type = "file" ∧
         p = item.path.replace ("disk:/" ++ cloudFolder ++ "/") "")) ∧
    (∀ p ∈ (scanCloudFiles cloudFolder items).map Prod.fst,
      ∃ item ∈ items, item.type = "file" ∧
        p = item.path.replace ("disk:/" ++ cloudFolder ++ "/") "") ∧
    (∀ (items' : List CloudItem) (base : CloudSnap),
      items.filter (fun i => i.type == "file") =
        items'.filter (fun i => i.type == "file") →
      ChangeDetector.checkCloudChanges (scanCloudFiles cloudFolder items') base =
        ChangeDetector.checkCloudChanges (scanCloudFiles cloudFolder items) base) := by
  refine ⟨?_, ?_, ?_⟩
  · intro p item
    rw [scanCloudFiles_eq]
    constructor
    · intro h
      obtain ⟨i, hi, heq⟩ := List.mem_map.mp h
      rw [List.mem_filter] at hi
      have e1 : i.path.replace ("disk:/" ++ cloudFolder ++ "/") "" = p := congrArg Prod.fst heq
      have e2 : i = item := congrArg Prod.snd heq
      subst e2
      exact ⟨hi.1, by simpa using hi.2, e1.symm⟩
    · rintro ⟨hmem, htype, rfl⟩
      exact List.mem_map.mpr ⟨item, List.mem_filter.mpr ⟨hmem, by simp [htype]⟩, rfl⟩
  · intro p hp
    rw [scanCloudFiles_eq, List.map_map] at hp
    obtain ⟨i, hi, heq⟩ := List.mem_map.mp hp
    rw [List.mem_filter] at hi
    exact ⟨i, hi.1, by simpa using hi.2, heq.symm⟩
  · intro items' base hfe
    rw [scanCloudFiles_eq, scanCloudFiles_eq, hfe]

/-- C9 witness: adding a directory entry to the enumeration leaves the cloud
change signal unchanged. -/
theorem C9_witness :
    ChangeDetector.checkCloudChanges (scanCloudFiles "sync" [itemA, dirItem]) [] =
      ChangeDetector.checkCloudChanges (scanCloudFiles "sync" [itemA]) [] :=
  (C9_remote_snapshot "sync" [itemA]).2.2 [itemA, dirItem] [] (by decide)

end CloudSync
